import Mathlib

/-!
Verification of the PointCloudViewer scene/camera/render-state engine
(`src/main.cpp`) against its natural-language specification.

The C++ source is shallowly embedded: GLSL/GLM float arithmetic is modelled
over `ℝ` (the bounds fold, which only compares coordinates, over `ℚ` so it
evaluates), GL object handles are modelled as natural numbers handed out
sequentially by the embedded `glGenVertexArrays` counter, and the externally
supplied OBJ loader result is a list of `Shape` records exactly as the code
receives it from `tinyobj::LoadObj`.
-/

namespace PointCloudViewer

/-- One `tinyobj::shape_t`: a flat list of position floats (three per vertex)
and a flat list of normal floats, as handed to `loadScene`. -/
structure Shape where
  positions : List ℚ
  normals : List ℚ
deriving DecidableEq

/-- The min/max accumulator of `loadScene` (`glm::vec3 min(0), max(0)`). -/
abbrev Bounds := (ℚ × ℚ × ℚ) × (ℚ × ℚ × ℚ)

/-- The inner vertex loop of `loadScene` (main.cpp lines 193-203): consume the
flat position list three floats at a time and fold each triple into the
running component-wise minimum and maximum, using the source's conditional
expressions `tmp < min ? tmp : min` and `tmp > max ? tmp : max` verbatim. -/
def foldMinMax : Bounds → List ℚ → Bounds
  | acc, x :: y :: z :: rest =>
      let mn := acc.1
      let mx := acc.2
      foldMinMax
        ((if x < mn.1 then x else mn.1,
          if y < mn.2.1 then y else mn.2.1,
          if z < mn.2.2 then z else mn.2.2),
         (if x > mx.1 then x else mx.1,
          if y > mx.2.1 then y else mx.2.1,
          if z > mx.2.2 then z else mx.2.2)) rest
  | acc, _ => acc

/-- The bounds computation of `loadScene` (main.cpp lines 185-203): the
accumulator is seeded with the origin (`glm::vec3 min(0), max(0)`) and folded
over the positions of every shape in order. -/
def computeBounds (shapes : List Shape) : Bounds :=
  shapes.foldl (fun acc s => foldMinMax acc s.positions) ((0, 0, 0), (0, 0, 0))

/-- The per-shape buffer-building loop of `loadScene` (main.cpp lines
186-232): for every shape, unconditionally, one vertex array is generated
(handles modelled as successive naturals starting at `h`) and the pair
`(mesh, posCount)` is appended, where `posCount = shapes[i].mesh.positions.size()`
is the number of position floats. No validation of any kind is performed. -/
def buildMeshes : ℕ → List Shape → List (ℕ × ℕ)
  | _, [] => []
  | h, s :: rest => (h, s.positions.length) :: buildMeshes (h + 1) rest

/-- The mesh list produced by `loadScene` (GL handles start at 1; 0 is the
"no object" value in GL). -/
def loadSceneMeshes (shapes : List Shape) : List (ℕ × ℕ) :=
  buildMeshes 1 shapes

/-- The per-frame point-cloud draw loop (main.cpp lines 515-518):
`glDrawArrays(GL_POINTS, 0, mesh.second)` for every mesh, i.e. the vertex
count submitted for each buffer is exactly the stored second component. -/
def submittedCounts (meshes : List (ℕ × ℕ)) : List ℕ :=
  meshes.map (fun m => m.2)

theorem buildMeshes_length (h : ℕ) (shapes : List Shape) :
    (buildMeshes h shapes).length = shapes.length := by
  induction shapes generalizing h with
  | nil => rfl
  | cons s rest ih => simp [buildMeshes, ih]

theorem buildMeshes_counts (h : ℕ) (shapes : List Shape) :
    submittedCounts (buildMeshes h shapes) = shapes.map (fun s => s.positions.length) := by
  induction shapes generalizing h with
  | nil => rfl
  | cons s rest ih => simp [buildMeshes, submittedCounts] at ih ⊢; exact ih (h + 1)

/-- Claim C1: for a shape with N = 1 position triple (and 1 normal triple),
the code records `positions.size() = 3` — the number of floats, i.e. 3N — as
the mesh's vertex count, and the per-frame draw submits that stored count (3,
not N = 1) to `glDrawArrays`. This evaluates the embedded `loadScene` at the
failing input of the claim. -/
theorem c1_vertex_count_eval :
    loadSceneMeshes [⟨[1, 2, 3], [4, 5, 6]⟩] = [(1, 3)] ∧
    submittedCounts (loadSceneMeshes [⟨[1, 2, 3], [4, 5, 6]⟩]) = [3] := by
  constructor <;> rfl

/-- Claim C6 counterexample: `loadScene` creates a GeometryBuffer even for a
shape whose normal count differs from its position count (here 3 position
floats, 0 normal floats) and even for a shape with an empty position list —
contradicting the claim that such shapes are rejected and no buffer is
created from them. -/
theorem c6_counterexample :
    (loadSceneMeshes [⟨[1, 2, 3], []⟩]).length = 1 ∧
    loadSceneMeshes [⟨[], [4, 5, 6]⟩] = [(1, 0)] := by
  constructor <;> rfl

/-- Claim C6 (amended): `loadScene` performs no validation at all — every
shape, including shapes with an empty position list or with mismatched
position/normal float counts, yields exactly one GeometryBuffer, and the
count stored (and later submitted to the draw call) for each shape is its
number of position floats. -/
theorem c6_no_validation (shapes : List Shape) :
    (loadSceneMeshes shapes).length = shapes.length ∧
    submittedCounts (loadSceneMeshes shapes) = shapes.map (fun s => s.positions.length) :=
  ⟨buildMeshes_length 1 shapes, buildMeshes_counts 1 shapes⟩

/-- The state `loadSceneFile` mutates: the bounds vertex-array handle
(`GLuint bounds`, 0 when none) and the mesh list. -/
structure ViewerScene where
  bounds : ℕ
  meshes : List (ℕ × ℕ)
deriving DecidableEq

/-- What the program is doing after a reload attempt: still running with some
scene, or terminated via `exit(1)` from `loadScene`. -/
inductive ReloadOutcome where
  | exited : ReloadOutcome
  | running : ViewerScene → ReloadOutcome
deriving DecidableEq

/-- Trace of one `loadSceneFile` call: which vertex-array handles were passed
to `glDeleteVertexArrays` before `tinyobj::LoadObj` ran, and the resulting
program state. -/
structure ReloadTrace where
  deletedBeforeLoad : List ℕ
  outcome : ReloadOutcome
deriving DecidableEq

/-- The function `loadSceneFile` (main.cpp lines 279-295) plus the load-failure path of
`loadScene` (lines 178-182). The file dialog and OBJ parse are external: the
argument is `none` when the user cancelled the dialog (`filename == NULL`),
or `some (ret, shapes)` for the chosen file's `LoadObj` result. When a file
is chosen, the old bounds handle (if nonzero) and every old mesh handle are
deleted and the state reset BEFORE `loadScene` is entered; inside
`loadScene`, `if (!ret) exit(1)` terminates the program on a failed parse,
otherwise the fresh meshes and a fresh bounds handle are installed. -/
def loadSceneFile (sc : ViewerScene) (dialog : Option (Bool × List Shape)) : ReloadTrace :=
  match dialog with
  | none => ⟨[], ReloadOutcome.running sc⟩
  | some (ret, shapes) =>
      let deleted := (if sc.bounds ≠ 0 then [sc.bounds] else []) ++ sc.meshes.map (fun m => m.1)
      if ret then
        ⟨deleted, ReloadOutcome.running ⟨shapes.length + 1, loadSceneMeshes shapes⟩⟩
      else
        ⟨deleted, ReloadOutcome.exited⟩

/-- Claim C2 counterexample: with a scene (bounds handle 7, one mesh handle
5) loaded, a reload whose `LoadObj` fails deletes both old handles BEFORE the
new scene is validated, and the program then exits — the old scene is
neither intact nor displayed, contradicting the claim. -/
theorem c2_counterexample :
    (loadSceneFile ⟨7, [(5, 9)]⟩ (some (false, []))).deletedBeforeLoad = [7, 5] ∧
    (loadSceneFile ⟨7, [(5, 9)]⟩ (some (false, []))).outcome = ReloadOutcome.exited := by
  constructor <;> rfl

/-- Claim C2 (amended): whenever a file is chosen in the dialog, the old
scene's bounds handle (if any) and all of its mesh buffers are freed before
the new file is even parsed; if the parse then fails the program exits(1)
(so the old scene is not preserved and nothing is displayed), and only a
cancelled dialog leaves the current scene untouched. -/
theorem c2_reload_behavior (sc : ViewerScene) (ret : Bool) (shapes : List Shape) :
    (loadSceneFile sc (some (ret, shapes))).deletedBeforeLoad =
      (if sc.bounds ≠ 0 then [sc.bounds] else []) ++ sc.meshes.map (fun m => m.1) ∧
    (loadSceneFile sc (some (false, shapes))).outcome = ReloadOutcome.exited ∧
    (loadSceneFile sc (some (true, shapes))).outcome =
      ReloadOutcome.running ⟨shapes.length + 1, loadSceneMeshes shapes⟩ ∧
    loadSceneFile sc none = ⟨[], ReloadOutcome.running sc⟩ := by
  refine ⟨?_, rfl, rfl, rfl⟩
  cases ret <;> rfl

/-- The function `createShader` (main.cpp lines 112-168), with the four GL status queries
as inputs: vertex-shader compile status, fragment-shader compile status, and
the program link status — which, due to the source querying `GL_LINK_STATUS`
again after `glValidateProgram` (lines 155-162), is checked twice. `false`
is returned at the first failed check, `true` otherwise. -/
def createShader (vertOk fragOk linkOk : Bool) : Bool :=
  if vertOk = false then false
  else if fragOk = false then false
  else if linkOk = false then false
  else if linkOk = false then false
  else true

/-- The startup sequence of `main` relevant to shaders (main.cpp lines
333-340 and entry into the render loop at line 397): `createShader` is
called for the point-cloud program and for the shape program, and in both
cases its boolean result is discarded — nothing between those calls and the
`while` loop inspects it, so the loop is entered unconditionally. -/
structure StartupTrace where
  pointcloudShaderOk : Bool
  shapeShaderOk : Bool
  entersRenderLoop : Bool
deriving DecidableEq

/-- The shader-related portion of `main`'s startup: both `createShader`
results are recorded here but, as in the source, never branched on. -/
def mainStartup (pcVert pcFrag pcLink shVert shFrag shLink : Bool) : StartupTrace :=
  ⟨createShader pcVert pcFrag pcLink, createShader shVert shFrag shLink, true⟩

/-- Claim C3: `main` ignores `createShader`'s failure flag. Even when every
compile and link step of both programs fails (all status queries false), the
render loop is still entered — there IS a path on which rendering continues
with an uncompiled shading pipeline, contradicting the claim that shader
failure is fatal to startup. The universally quantified conjunct shows no
combination of shader outcomes prevents the render loop. -/
theorem c3_shader_failure_ignored :
    (mainStartup false false false false false false).pointcloudShaderOk = false ∧
    (mainStartup false false false false false false).shapeShaderOk = false ∧
    (mainStartup false false false false false false).entersRenderLoop = true ∧
    (∀ a b c d e f : Bool, (mainStartup a b c d e f).entersRenderLoop = true) := by
  exact ⟨rfl, rfl, rfl, fun _ _ _ _ _ _ => rfl⟩

/-- Claim C4: the bounds accumulator is seeded with the origin, so a scene
holding a single point with strictly positive coordinates yields
min = (0,0,0) and max = (x,y,z), and an empty shape list yields
min = max = (0,0,0) (the loop body never runs and the seed is returned). -/
theorem c4_bounds_origin_seeded (x y z nx ny nz : ℚ)
    (hx : 0 < x) (hy : 0 < y) (hz : 0 < z) :
    computeBounds [⟨[x, y, z], [nx, ny, nz]⟩] = ((0, 0, 0), (x, y, z)) ∧
    computeBounds ([] : List Shape) = ((0, 0, 0), (0, 0, 0)) := by
  refine ⟨?_, rfl⟩
  simp [computeBounds, foldMinMax, not_lt.2 hx.le, not_lt.2 hy.le, not_lt.2 hz.le, hx, hy, hz]

/-- Witness for C4 at the concrete point (1, 2, 3) with normal (0, 0, 1). -/
theorem c4_witness :
    computeBounds [⟨[1, 2, 3], [0, 0, 1]⟩] = ((0, 0, 0), (1, 2, 3)) ∧
    computeBounds ([] : List Shape) = ((0, 0, 0), (0, 0, 0)) :=
  c4_bounds_origin_seeded 1 2 3 0 0 1 (by norm_num) (by norm_num) (by norm_num)

/-- The constant `half_pi = 3.1415 * 0.5f` (main.cpp line 353). Note this is
slightly SMALLER than the mathematical π/2. -/
noncomputable def half_pi : ℝ := 3.1415 * 0.5

/-- GLM `radians` — degrees to radians. -/
noncomputable def glmRadians (d : ℝ) : ℝ := d * (Real.pi / 180)

/-- GLM `clamp(x, lo, hi) = min(max(x, lo), hi)`. -/
noncomputable def glmClamp (x lo hi : ℝ) : ℝ := min (max x lo) hi

/-- The clamp `angles.x = glm::clamp(angles.x, -half_pi, half_pi)` (main.cpp line 474). -/
noncomputable def clampPitch (x : ℝ) : ℝ := glmClamp x (-half_pi) half_pi

/-- One rotate-mode pitch update (main.cpp lines 473-474):
`angles.x -= glm::radians(mouseDelta.y) * mouseSensitivity`, then the clamp. -/
noncomputable def updatePitch (pitch mouseDeltaY sensitivity : ℝ) : ℝ :=
  clampPitch (pitch - glmRadians mouseDeltaY * sensitivity)

/-- One rotate step as consumed by a fold over a list of
(mouseDelta.y, sensitivity) pairs. -/
noncomputable def pitchStep (pitch : ℝ) (ds : ℝ × ℝ) : ℝ :=
  updatePitch pitch ds.1 ds.2

theorem half_pi_pos : 0 < half_pi := by norm_num [half_pi]

theorem half_pi_lt_pi_div_two : half_pi < Real.pi / 2 := by
  have h := Real.pi_gt_d4
  rw [half_pi]
  linarith

theorem clampPitch_mem (x : ℝ) : -half_pi ≤ clampPitch x ∧ clampPitch x ≤ half_pi := by
  unfold clampPitch glmClamp
  constructor
  · exact le_min (le_max_right x (-half_pi)) (by linarith [half_pi_pos])
  · exact min_le_right _ _

theorem updatePitch_mem (p d s : ℝ) :
    -(Real.pi / 2) ≤ updatePitch p d s ∧ updatePitch p d s ≤ Real.pi / 2 := by
  have h := clampPitch_mem (p - glmRadians d * s)
  have hp := half_pi_lt_pi_div_two
  exact ⟨by unfold updatePitch; linarith [h.1], by unfold updatePitch; linarith [h.2]⟩

theorem foldl_pitchStep_mem (steps : List (ℝ × ℝ)) (p : ℝ)
    (hp : -(Real.pi / 2) ≤ p ∧ p ≤ Real.pi / 2) :
    -(Real.pi / 2) ≤ steps.foldl pitchStep p ∧ steps.foldl pitchStep p ≤ Real.pi / 2 := by
  induction steps generalizing p with
  | nil => exact hp
  | cons s rest ih => exact ih (pitchStep p s) (updatePitch_mem p s.1 s.2)

/-- Claim C5: every single rotate-mode update leaves the pitch in
[-π/2, π/2] (indeed in the slightly tighter [-half_pi, half_pi]); hence
after any nonempty sequence of updates, from any starting pitch and with
arbitrary mouse deltas and sensitivities, the pitch lies in [-π/2, π/2];
and the clamp is idempotent. -/
theorem c5_pitch_clamped :
    (∀ p d s : ℝ, -(Real.pi / 2) ≤ updatePitch p d s ∧ updatePitch p d s ≤ Real.pi / 2) ∧
    (∀ (p0 : ℝ) (steps : List (ℝ × ℝ)), steps ≠ [] →
      -(Real.pi / 2) ≤ steps.foldl pitchStep p0 ∧
        steps.foldl pitchStep p0 ≤ Real.pi / 2) ∧
    (∀ x : ℝ, clampPitch (clampPitch x) = clampPitch x) := by
  refine ⟨updatePitch_mem, ?_, ?_⟩
  · intro p0 steps hne
    match steps with
    | [] => exact absurd rfl hne
    | s :: rest =>
        exact foldl_pitchStep_mem rest (pitchStep p0 s) (updatePitch_mem p0 s.1 s.2)
  · intro x
    have h := clampPitch_mem x
    conv_lhs => rw [clampPitch, glmClamp]
    rw [max_eq_left h.1, min_eq_left h.2]

/-- Witness for C5: one rotate step with mouse delta 4000 pixels and
sensitivity 0.7 from initial pitch 0 lands in [-π/2, π/2]. -/
theorem c5_witness :
    -(Real.pi / 2) ≤ List.foldl pitchStep 0 [((4000 : ℝ), (0.7 : ℝ))] ∧
    List.foldl pitchStep 0 [((4000 : ℝ), (0.7 : ℝ))] ≤ Real.pi / 2 :=
  c5_pitch_clamped.2.1 0 [((4000 : ℝ), (0.7 : ℝ))] (by simp)

/-- A GLSL `vec3`, modelled over the reals. -/
abbrev Vec3 := ℝ × ℝ × ℝ

/-- GLSL `dot` on `vec3`. -/
noncomputable def dot (a b : Vec3) : ℝ := a.1 * b.1 + a.2.1 * b.2.1 + a.2.2 * b.2.2

/-- Component-wise negation (GLSL unary minus on `vec3`). -/
noncomputable def vneg (a : Vec3) : Vec3 := (-a.1, -a.2.1, -a.2.2)

/-- Component-wise addition of two `vec3`. -/
noncomputable def vadd (a b : Vec3) : Vec3 := (a.1 + b.1, a.2.1 + b.2.1, a.2.2 + b.2.2)

/-- Component-wise product of two `vec3` (GLSL `*` on vectors). -/
noncomputable def vmul (a b : Vec3) : Vec3 := (a.1 * b.1, a.2.1 * b.2.1, a.2.2 * b.2.2)

/-- Scalar times `vec3` (GLSL `float * vec3`). -/
noncomputable def sscale (s : ℝ) (a : Vec3) : Vec3 := (s * a.1, s * a.2.1, s * a.2.2)

/-- Component-wise absolute value (GLSL `abs` on `vec3`). -/
noncomputable def vabs (a : Vec3) : Vec3 := (|a.1|, |a.2.1|, |a.2.2|)

/-- GLSL `length` / `glm::length`: the Euclidean norm of a `vec3`. -/
noncomputable def glmLength (v : Vec3) : ℝ := Real.sqrt (dot v v)

/-- GLSL `normalize`: the vector divided by its length. -/
noncomputable def glslNormalize (v : Vec3) : Vec3 :=
  (v.1 / glmLength v, v.2.1 / glmLength v, v.2.2 / glmLength v)

/-- The else-branch of the fragment shader `pointcloud_frag` (main.cpp lines
84-87): `d = dot(_Normal, normalize(-LightDir))`, then
`AmbientCol + d * LightIntensity * LightCol * DiffuseCol` with GLSL's
left-associated scalar/vector products. -/
noncomputable def litColor (nrm lightDir lightCol diffuseCol ambientCol : Vec3)
    (lightIntensity : ℝ) : Vec3 :=
  vadd ambientCol
    (vmul (sscale (dot nrm (glslNormalize (vneg lightDir)) * lightIntensity) lightCol)
      diffuseCol)

/-- The full fragment shader `pointcloud_frag` (main.cpp lines 79-88):
DrawMode 0 outputs the diffuse colour, DrawMode 1 the absolute normalized
normal, and EVERY other DrawMode value falls into the final else-branch
producing the lit formula. Output is (rgb, alpha). -/
noncomputable def pointcloudFrag (drawMode : ℤ)
    (nrm lightDir lightCol diffuseCol ambientCol : Vec3)
    (lightIntensity : ℝ) : Vec3 × ℝ :=
  if drawMode = 0 then (diffuseCol, 1)
  else if drawMode = 1 then (vabs (glslNormalize nrm), 1)
  else (litColor nrm lightDir lightCol diffuseCol ambientCol lightIntensity, 1)

/-- The Lit formula as the specification words it: ambient_color +
d × light_intensity × light_color × diffuse_color where
d = dot(normal, −normalize(light_direction)) — the normalization applied
before the negation, unlike the code which normalizes the negated vector. -/
noncomputable def specLitColor (nrm lightDir lightCol diffuseCol ambientCol : Vec3)
    (lightIntensity : ℝ) : Vec3 :=
  vadd ambientCol
    (vmul (sscale (dot nrm (vneg (glslNormalize lightDir)) * lightIntensity) lightCol)
      diffuseCol)

/-- The initial value of the `drawMode` variable (main.cpp line 356). -/
def drawModeInit : ℤ := 3

/-- The value the "Lit" radio button stores into `drawMode`
(main.cpp line 445: `ImGui::RadioButton("Lit", &drawMode, 3)`). -/
def drawModeLitUI : ℤ := 3

theorem glmLength_vneg (v : Vec3) : glmLength (vneg v) = glmLength v := by
  unfold glmLength dot vneg
  congr 1
  ring

theorem glslNormalize_vneg (v : Vec3) : glslNormalize (vneg v) = vneg (glslNormalize v) := by
  unfold glslNormalize
  rw [glmLength_vneg]
  simp [vneg, neg_div]

theorem litColor_eq_spec (nrm lightDir lightCol diffuseCol ambientCol : Vec3)
    (lightIntensity : ℝ) :
    litColor nrm lightDir lightCol diffuseCol ambientCol lightIntensity =
      specLitColor nrm lightDir lightCol diffuseCol ambientCol lightIntensity := by
  unfold litColor specLitColor
  rw [glslNormalize_vneg]

/-- Claim C7: in the program's Lit mode (DrawMode = 3) the fragment colour is
ambient_color + d × light_intensity × light_color × diffuse_color with
d = dot(normal, −normalize(light_direction)) — the code's
`normalize(-LightDir)` equals `-normalize(LightDir)` — and d is not clamped:
when d is negative and the intensity and all light/diffuse colour components
are positive, every output component is strictly below the corresponding
ambient component (light is subtracted). -/
theorem c7_lit_formula (nrm lightDir lightCol diffuseCol ambientCol : Vec3)
    (lightIntensity : ℝ) (_hL : lightDir ≠ ((0 : ℝ), (0 : ℝ), (0 : ℝ))) :
    pointcloudFrag 3 nrm lightDir lightCol diffuseCol ambientCol lightIntensity =
      (specLitColor nrm lightDir lightCol diffuseCol ambientCol lightIntensity, 1) ∧
    (dot nrm (glslNormalize (vneg lightDir)) < 0 → 0 < lightIntensity →
      0 < lightCol.1 → 0 < lightCol.2.1 → 0 < lightCol.2.2 →
      0 < diffuseCol.1 → 0 < diffuseCol.2.1 → 0 < diffuseCol.2.2 →
      ((pointcloudFrag 3 nrm lightDir lightCol diffuseCol ambientCol lightIntensity).1.1
          < ambientCol.1 ∧
        (pointcloudFrag 3 nrm lightDir lightCol diffuseCol ambientCol lightIntensity).1.2.1
          < ambientCol.2.1 ∧
        (pointcloudFrag 3 nrm lightDir lightCol diffuseCol ambientCol lightIntensity).1.2.2
          < ambientCol.2.2)) := by
  have hfrag : pointcloudFrag 3 nrm lightDir lightCol diffuseCol ambientCol lightIntensity =
      (litColor nrm lightDir lightCol diffuseCol ambientCol lightIntensity, 1) := by
    unfold pointcloudFrag
    norm_num
  constructor
  · rw [hfrag, litColor_eq_spec]
  · intro hd hi hlc1 hlc2 hlc3 hdc1 hdc2 hdc3
    rw [hfrag]
    unfold litColor vadd vmul sscale
    have hdi : dot nrm (glslNormalize (vneg lightDir)) * lightIntensity < 0 :=
      mul_neg_of_neg_of_pos hd hi
    refine ⟨?_, ?_, ?_⟩ <;>
      simp only [] <;>
      nlinarith [mul_neg_of_neg_of_pos (mul_neg_of_neg_of_pos hdi hlc1) hdc1,
        mul_neg_of_neg_of_pos (mul_neg_of_neg_of_pos hdi hlc2) hdc2,
        mul_neg_of_neg_of_pos (mul_neg_of_neg_of_pos hdi hlc3) hdc3]

/-- Witness for C7 with normal (0,0,1), light direction (0,-1,0) (nonzero),
white light, intensity 1, diffuse (1,1,1), ambient (0,0,0). -/
theorem c7_witness :
    pointcloudFrag 3 ((0 : ℝ), (0 : ℝ), (1 : ℝ)) ((0 : ℝ), (-1 : ℝ), (0 : ℝ))
        ((1 : ℝ), (1 : ℝ), (1 : ℝ)) ((1 : ℝ), (1 : ℝ), (1 : ℝ))
        ((0 : ℝ), (0 : ℝ), (0 : ℝ)) 1 =
      (specLitColor ((0 : ℝ), (0 : ℝ), (1 : ℝ)) ((0 : ℝ), (-1 : ℝ), (0 : ℝ))
        ((1 : ℝ), (1 : ℝ), (1 : ℝ)) ((1 : ℝ), (1 : ℝ), (1 : ℝ))
        ((0 : ℝ), (0 : ℝ), (0 : ℝ)) 1, 1) :=
  (c7_lit_formula ((0 : ℝ), (0 : ℝ), (1 : ℝ)) ((0 : ℝ), (-1 : ℝ), (0 : ℝ))
    ((1 : ℝ), (1 : ℝ), (1 : ℝ)) ((1 : ℝ), (1 : ℝ), (1 : ℝ))
    ((0 : ℝ), (0 : ℝ), (0 : ℝ)) 1
    (by simp [Prod.ext_iff])).1

/-- Claim C10: every DrawMode value other than 0 and 1 — including 3, the
value both the initial state and the Lit radio button use — selects the lit
branch of the fragment shader; the shader is total (every mode yields one of
the three outputs, none is rejected); and the UI's Lit value is 3, not the 2
a three-value enum would suggest. -/
theorem c10_draw_mode :
    (∀ (m : ℤ) (nrm lightDir lightCol diffuseCol ambientCol : Vec3) (lightIntensity : ℝ),
      m ≠ 0 → m ≠ 1 →
      pointcloudFrag m nrm lightDir lightCol diffuseCol ambientCol lightIntensity =
        (litColor nrm lightDir lightCol diffuseCol ambientCol lightIntensity, 1)) ∧
    drawModeLitUI = 3 ∧ drawModeLitUI ≠ 2 ∧ drawModeInit = drawModeLitUI ∧
    (∀ (m : ℤ) (nrm lightDir lightCol diffuseCol ambientCol : Vec3) (lightIntensity : ℝ),
      pointcloudFrag m nrm lightDir lightCol diffuseCol ambientCol lightIntensity =
          (diffuseCol, 1) ∨
        pointcloudFrag m nrm lightDir lightCol diffuseCol ambientCol lightIntensity =
          (vabs (glslNormalize nrm), 1) ∨
        pointcloudFrag m nrm lightDir lightCol diffuseCol ambientCol lightIntensity =
          (litColor nrm lightDir lightCol diffuseCol ambientCol lightIntensity, 1)) := by
  refine ⟨?_, rfl, by decide, rfl, ?_⟩
  · intro m nrm lightDir lightCol diffuseCol ambientCol lightIntensity hm0 hm1
    simp [pointcloudFrag, hm0, hm1]
  · intro m nrm lightDir lightCol diffuseCol ambientCol lightIntensity
    by_cases hm0 : m = 0
    · left; simp [pointcloudFrag, hm0]
    · by_cases hm1 : m = 1
      · right; left; simp [pointcloudFrag, hm0, hm1]
      · right; right; simp [pointcloudFrag, hm0, hm1]

/-- Witness for C10 at DrawMode 3 (the program's Lit value). -/
theorem c10_witness :
    pointcloudFrag 3 ((0 : ℝ), (0 : ℝ), (1 : ℝ)) ((0 : ℝ), (-1 : ℝ), (0.1 : ℝ))
        ((1 : ℝ), (1 : ℝ), (1 : ℝ)) ((1 : ℝ), (0.2 : ℝ), (0.1 : ℝ))
        ((0.05 : ℝ), (0.2 : ℝ), (0.1 : ℝ)) 1 =
      (litColor ((0 : ℝ), (0 : ℝ), (1 : ℝ)) ((0 : ℝ), (-1 : ℝ), (0.1 : ℝ))
        ((1 : ℝ), (1 : ℝ), (1 : ℝ)) ((1 : ℝ), (0.2 : ℝ), (0.1 : ℝ))
        ((0.05 : ℝ), (0.2 : ℝ), (0.1 : ℝ)) 1, 1) :=
  c10_draw_mode.1 3 ((0 : ℝ), (0 : ℝ), (1 : ℝ)) ((0 : ℝ), (-1 : ℝ), (0.1 : ℝ))
    ((1 : ℝ), (1 : ℝ), (1 : ℝ)) ((1 : ℝ), (0.2 : ℝ), (0.1 : ℝ))
    ((0.05 : ℝ), (0.2 : ℝ), (0.1 : ℝ)) 1 (by decide) (by decide)

/-- The per-frame point-size computation (main.cpp lines 507-513): when
`scalePoints` is set, `(1.f / pow(glm::length(camPos), scaleExp)) * 20` is
passed to `glPointSize`, otherwise `1.f` is. -/
noncomputable def pointSize (scalePoints : Bool) (camPos : Vec3) (scaleExp : ℝ) : ℝ :=
  if scalePoints then (1 / glmLength camPos ^ scaleExp) * 20 else 1

/-- The quantity `distance_from_origin` as the specification words it. -/
noncomputable def distanceFromOrigin (p : Vec3) : ℝ :=
  Real.sqrt (p.1 ^ 2 + p.2.1 ^ 2 + p.2.2 ^ 2)

/-- The point-size formula as the specification words it:
(1 / distance_from_origin(camera.position)^point_scale_exponent) × 20 when
scaling is enabled, else 1. -/
noncomputable def specPointSize (enabled : Bool) (camPos : Vec3) (scaleExp : ℝ) : ℝ :=
  if enabled then (1 / distanceFromOrigin camPos ^ scaleExp) * 20 else 1

theorem glmLength_eq_distanceFromOrigin (p : Vec3) :
    glmLength p = distanceFromOrigin p := by
  unfold glmLength distanceFromOrigin dot
  congr 1
  ring

theorem glmLength_camPos_two : glmLength ((0 : ℝ), (2 : ℝ), (0 : ℝ)) = 2 := by
  unfold glmLength dot
  norm_num
  rw [show (4 : ℝ) = 2 ^ 2 by norm_num, Real.sqrt_sq (by norm_num : (0 : ℝ) ≤ 2)]

theorem two_rpow_ninth_tenth_bounds :
    (1.8657 : ℝ) < (2 : ℝ) ^ (0.9 : ℝ) ∧ (2 : ℝ) ^ (0.9 : ℝ) < 1.8691 := by
  have hpos : (0 : ℝ) < (2 : ℝ) ^ (0.9 : ℝ) := Real.rpow_pos_of_pos (by norm_num) _
  have hpow : ((2 : ℝ) ^ (0.9 : ℝ)) ^ (10 : ℕ) = 512 := by
    rw [← Real.rpow_natCast ((2 : ℝ) ^ (0.9 : ℝ)) 10,
      ← Real.rpow_mul (by norm_num : (0 : ℝ) ≤ 2)]
    rw [show (0.9 : ℝ) * (10 : ℕ) = ((9 : ℕ) : ℝ) by norm_num]
    rw [Real.rpow_natCast]
    norm_num
  constructor
  · apply lt_of_pow_lt_pow_left₀ 10 hpos.le
    rw [hpow]
    norm_num
  · apply lt_of_pow_lt_pow_left₀ 10 (by norm_num : (0 : ℝ) ≤ (1.8691 : ℝ))
    rw [hpow]
    norm_num

/-- Claim C8 counterexample: with scaling enabled, exponent 0.9 and the
camera at (0, 2, 0) (distance 2 from the origin), the submitted point size
(1/2^0.9) × 20 is NOT approximately 10.84 — it differs from 10.84 by more
than 0.1 (it lies strictly below 10.72). -/
theorem c8_counterexample :
    |pointSize true ((0 : ℝ), (2 : ℝ), (0 : ℝ)) (0.9 : ℝ) - 10.84| > 0.1 := by
  have hb := two_rpow_ninth_tenth_bounds
  have hpos : (0 : ℝ) < (2 : ℝ) ^ (0.9 : ℝ) := Real.rpow_pos_of_pos (by norm_num) _
  have hval : pointSize true ((0 : ℝ), (2 : ℝ), (0 : ℝ)) (0.9 : ℝ) =
      (1 / (2 : ℝ) ^ (0.9 : ℝ)) * 20 := by
    unfold pointSize
    rw [glmLength_camPos_two, if_pos rfl]
  rw [hval]
  have hlt : (1 / (2 : ℝ) ^ (0.9 : ℝ)) * 20 < 10.72 := by
    rw [one_div, inv_mul_eq_div, div_lt_iff₀ hpos]
    nlinarith [hb.1]
  have hneg : (1 / (2 : ℝ) ^ (0.9 : ℝ)) * 20 - 10.84 < 0 := by linarith
  rw [abs_of_neg hneg]
  linarith

/-- Claim C8 (amended): the point size equals the specification's formula
(1 / distance_from_origin(camera.position)^exponent) × 20 when scaling is
enabled and 1 when disabled, for every camera position and exponent; and at
camera distance 2 with exponent 0.9 its value (1/2^0.9) × 20 lies strictly
between 10.70 and 10.72 (≈ 10.72, not ≈ 10.84). -/
theorem c8_point_size :
    (∀ (b : Bool) (camPos : Vec3) (scaleExp : ℝ),
      pointSize b camPos scaleExp = specPointSize b camPos scaleExp) ∧
    (∀ (camPos : Vec3) (scaleExp : ℝ), pointSize false camPos scaleExp = 1) ∧
    (10.70 < pointSize true ((0 : ℝ), (2 : ℝ), (0 : ℝ)) (0.9 : ℝ) ∧
      pointSize true ((0 : ℝ), (2 : ℝ), (0 : ℝ)) (0.9 : ℝ) < 10.72) := by
  have hb := two_rpow_ninth_tenth_bounds
  have hpos : (0 : ℝ) < (2 : ℝ) ^ (0.9 : ℝ) := Real.rpow_pos_of_pos (by norm_num) _
  have hval : pointSize true ((0 : ℝ), (2 : ℝ), (0 : ℝ)) (0.9 : ℝ) =
      (1 / (2 : ℝ) ^ (0.9 : ℝ)) * 20 := by
    unfold pointSize
    rw [glmLength_camPos_two, if_pos rfl]
  refine ⟨?_, fun camPos scaleExp => rfl, ?_, ?_⟩
  · intro b camPos scaleExp
    unfold pointSize specPointSize
    rw [glmLength_eq_distanceFromOrigin]
  · rw [hval, one_div, inv_mul_eq_div, lt_div_iff₀ hpos]
    nlinarith [hb.2]
  · rw [hval, one_div, inv_mul_eq_div, div_lt_iff₀ hpos]
    nlinarith [hb.1]

/-- The 8 rows of the `boundsData` array (main.cpp lines 239-248), i.e. the
corner points of the axis-aligned box, in the order the code lists them. -/
def corner (mn mx : ℚ × ℚ × ℚ) : Fin 8 → ℚ × ℚ × ℚ
  | 0 => (mn.1, mn.2.1, mn.2.2)
  | 1 => (mx.1, mn.2.1, mn.2.2)
  | 2 => (mn.1, mx.2.1, mn.2.2)
  | 3 => (mx.1, mx.2.1, mn.2.2)
  | 4 => (mn.1, mn.2.1, mx.2.2)
  | 5 => (mx.1, mn.2.1, mx.2.2)
  | 6 => (mn.1, mx.2.1, mx.2.2)
  | 7 => (mx.1, mx.2.1, mx.2.2)

/-- The constant `boundsIndices` array (main.cpp lines 250-254), uploaded to
the element buffer and drawn with `glDrawElements(GL_LINES, 24, ...)`. -/
def boundsIndices : List ℕ :=
  [0, 1, 3, 1, 2, 0, 2, 3,
   4, 5, 7, 5, 6, 4, 6, 7,
   0, 4, 1, 5, 2, 6, 3, 7]

/-- How `GL_LINES` consumes an index list: successive disjoint pairs, each
pair one line segment. -/
def toPairs : List ℕ → List (ℕ × ℕ)
  | a :: b :: rest => (a, b) :: toPairs rest
  | _ => []

/-- How many times the unordered pair {i, j} occurs in a segment list. -/
def edgeCount (ps : List (ℕ × ℕ)) (i j : ℕ) : ℕ :=
  ps.countP (fun p => p == (i, j) || p == (j, i))

/-- In how many of the three coordinates two points differ. Two corners of a
non-degenerate box span an edge iff they differ in exactly one coordinate
(2 = face diagonal, 3 = body diagonal, 0 = same corner). -/
def diffCount (a b : ℚ × ℚ × ℚ) : ℕ :=
  (if a.1 = b.1 then 0 else 1) + (if a.2.1 = b.2.1 then 0 else 1) +
    (if a.2.2 = b.2.2 then 0 else 1)

/-- Coordinate-difference count of corners `i` and `j` expressed on the index
bits (corner `i` takes the max coordinate on axis `a` iff bit `a` of `i` is
set, by the layout of `boundsData`). -/
def bitDiff (a b : ℕ) : ℕ :=
  (if a % 2 = b % 2 then 0 else 1) + (if a / 2 % 2 = b / 2 % 2 then 0 else 1) +
    (if a / 4 % 2 = b / 4 % 2 then 0 else 1)

theorem diffCount_corner_eq_bitDiff (mn mx : ℚ × ℚ × ℚ)
    (h1 : mn.1 ≠ mx.1) (h2 : mn.2.1 ≠ mx.2.1) (h3 : mn.2.2 ≠ mx.2.2) (i j : Fin 8) :
    diffCount (corner mn mx i) (corner mn mx j) = bitDiff i.val j.val := by
  fin_cases i <;> fin_cases j <;>
    simp [corner, diffCount, bitDiff, h1, h2, h3, Ne.symm h1, Ne.symm h2, Ne.symm h3]

/-- Claim C9: the bounds wireframe index list is a data-independent constant
of exactly 24 indices, all referring to the 8 box corners, and — for any box
that is non-degenerate on all three axes — the 12 line segments it encodes
are exactly the 12 edges of the box, each listed exactly once: an unordered
corner pair appears in the list precisely when the two corners differ in
exactly one coordinate, so no face or body diagonal (and no degenerate pair)
is listed. -/
theorem c9_wireframe_edges (mn mx : ℚ × ℚ × ℚ)
    (h1 : mn.1 ≠ mx.1) (h2 : mn.2.1 ≠ mx.2.1) (h3 : mn.2.2 ≠ mx.2.2) :
    boundsIndices.length = 24 ∧
    (∀ k ∈ boundsIndices, k < 8) ∧
    (∀ i j : Fin 8,
      edgeCount (toPairs boundsIndices) i.val j.val =
        if diffCount (corner mn mx i) (corner mn mx j) = 1 then 1 else 0) := by
  refine ⟨by decide, by decide, ?_⟩
  intro i j
  rw [diffCount_corner_eq_bitDiff mn mx h1 h2 h3 i j]
  revert i j
  decide

/-- Witness for C9 on the unit box (min the origin, max (1,1,1)). -/
theorem c9_witness :
    boundsIndices.length = 24 ∧
    (∀ k ∈ boundsIndices, k < 8) ∧
    (∀ i j : Fin 8,
      edgeCount (toPairs boundsIndices) i.val j.val =
        if diffCount (corner ((0 : ℚ), (0 : ℚ), (0 : ℚ)) ((1 : ℚ), (1 : ℚ), (1 : ℚ)) i)
            (corner ((0 : ℚ), (0 : ℚ), (0 : ℚ)) ((1 : ℚ), (1 : ℚ), (1 : ℚ)) j) = 1
        then 1 else 0) :=
  c9_wireframe_edges ((0 : ℚ), (0 : ℚ), (0 : ℚ)) ((1 : ℚ), (1 : ℚ), (1 : ℚ))
    (by norm_num) (by norm_num) (by norm_num)

end PointCloudViewer
